import Mathlib

/-!
Verification of the Blitzball Arena match simulator
(src/src/components/Game.tsx) against its specification.

All continuous quantities (positions, velocities, radii, speeds, kick
power) are modelled as real numbers; scores and clock values as natural
numbers.  Each definition mirrors one block of the `updateGame` tick
function or one of its helper closures, keeping the source order of
operations and the source constants.
-/

namespace Blitzball

noncomputable section

/-- Field width in pixels (constant CANVAS_WIDTH from the source). -/
def CANVAS_WIDTH : ℝ := 800

/-- Field height in pixels (constant CANVAS_HEIGHT from the source). -/
def CANVAS_HEIGHT : ℝ := 600

/-- Base radius of the player and AI bodies (constant PLAYER_RADIUS). -/
def PLAYER_RADIUS : ℝ := 20

/-- Radius of the ball (constant BALL_RADIUS). -/
def BALL_RADIUS : ℝ := 12

/-- Per-tick multiplicative friction on ball velocity (BASE_FRICTION). -/
def BASE_FRICTION : ℝ := 0.98

/-- Base (non-sprint) player speed (BASE_PLAYER_SPEED). -/
def BASE_PLAYER_SPEED : ℝ := 5

/-- Sprint multiplier on player speed (SPRINT_MULTIPLIER). -/
def SPRINT_MULTIPLIER : ℝ := 1.5

/-- Fixed AI chase speed (AI_SPEED). -/
def AI_SPEED : ℝ := 4

/-- Kick power added per tick while charging (KICK_CHARGE_RATE). -/
def KICK_CHARGE_RATE : ℝ := 0.5

/-- Maximum charged kick power (MAX_KICK_POWER). -/
def MAX_KICK_POWER : ℝ := 20

/-- Power-up lifetime in milliseconds (POWER_UP_DURATION). -/
def POWER_UP_DURATION : ℕ := 5000

/-- A movable body, mirroring the GameObject interface of the source:
the human player and the AI opponent. -/
@[ext]
structure GameObject where
  x : ℝ
  y : ℝ
  vx : ℝ
  vy : ℝ
  radius : ℝ
  speed : ℝ
  maxSpeed : ℝ
  acceleration : ℝ
  deceleration : ℝ
  direction : ℤ

/-- The ball state, mirroring the ball object of gameStateRef. -/
@[ext]
structure Ball where
  x : ℝ
  y : ℝ
  vx : ℝ
  vy : ℝ
  radius : ℝ
  spin : ℝ
  rotation : ℝ

/-- The three power-up kinds of the PowerUp interface. -/
inductive PUType where
  | speed
  | sticky
  | giant
deriving DecidableEq

/-- A power-up, mirroring the PowerUp interface.  The optional
activation timestamp startTime is an Option of a millisecond clock
value. -/
@[ext]
structure PowerUp where
  x : ℝ
  y : ℝ
  type : PUType
  active : Bool
  duration : ℕ
  startTime : Option ℕ

/-- Keyboard input state, mirroring the keys object of gameStateRef. -/
@[ext]
structure Keys where
  up : Bool
  down : Bool
  left : Bool
  right : Bool
  space : Bool
  shift : Bool

/-- The score pair held in React state. -/
@[ext]
structure Score where
  player : ℕ
  ai : ℕ

/-- The full match state: the mutable bodies of gameStateRef together
with the React state the simulation reads and writes. -/
@[ext]
structure GameState where
  player : GameObject
  ai : GameObject
  ball : Ball
  score : Score
  powerUps : List PowerUp
  timeLeft : ℕ
  kickPower : ℝ
  isCharging : Bool
  paused : Bool
  gameOver : Bool

/-- The initial player body from gameStateRef (x = CANVAS_WIDTH/4,
y = CANVAS_HEIGHT/2, at rest, base attributes). -/
def initialPlayer : GameObject :=
  { x := CANVAS_WIDTH / 4
    y := CANVAS_HEIGHT / 2
    vx := 0
    vy := 0
    radius := PLAYER_RADIUS
    speed := BASE_PLAYER_SPEED
    maxSpeed := BASE_PLAYER_SPEED * SPRINT_MULTIPLIER
    acceleration := 0.5
    deceleration := 0.8
    direction := 1 }

/-- The initial AI body from gameStateRef (x = 3·CANVAS_WIDTH/4,
y = CANVAS_HEIGHT/2, at rest, fixed AI attributes). -/
def initialAi : GameObject :=
  { x := CANVAS_WIDTH / 4 * 3
    y := CANVAS_HEIGHT / 2
    vx := 0
    vy := 0
    radius := PLAYER_RADIUS
    speed := AI_SPEED
    maxSpeed := AI_SPEED
    acceleration := 0.4
    deceleration := 0.8
    direction := -1 }

/-- The initial ball from gameStateRef (field centre, at rest). -/
def initialBall : Ball :=
  { x := CANVAS_WIDTH / 2
    y := CANVAS_HEIGHT / 2
    vx := 0
    vy := 0
    radius := BALL_RADIUS
    spin := 0
    rotation := 0 }

/-- The resetGame handler (source lines 189-219): zeroes the score,
restores the clock to 180 seconds, clears game-over, power-ups, kick
charge and charging flag, moves all three bodies back to their initial
positions with zero velocities and initial facing, and pauses the
match.  Note that it does not touch player.radius or player.maxSpeed:
power-up multipliers survive a reset (faithful to the source). -/
def resetGame (s : GameState) : GameState :=
  { s with
    score := { player := 0, ai := 0 }
    timeLeft := 180
    gameOver := false
    powerUps := []
    kickPower := 0
    isCharging := false
    player := { s.player with
      x := CANVAS_WIDTH / 4
      y := CANVAS_HEIGHT / 2
      vx := 0
      vy := 0
      direction := 1 }
    ai := { s.ai with
      x := CANVAS_WIDTH / 4 * 3
      y := CANVAS_HEIGHT / 2
      vx := 0
      vy := 0
      direction := -1 }
    ball := { s.ball with
      x := CANVAS_WIDTH / 2
      y := CANVAS_HEIGHT / 2
      vx := 0
      vy := 0
      spin := 0
      rotation := 0 }
    paused := true }

/-- Speed (velocity magnitude) of the ball. -/
def ballSpeed (b : Ball) : ℝ := Real.sqrt (b.vx ^ 2 + b.vy ^ 2)

/-- Ball motion integration with friction, spin accumulation and wall
reflection (source lines 416-431): position += velocity, velocity is
multiplied by BASE_FRICTION, rotation accumulates spin, and if the
updated position crosses a wall the corresponding velocity component is
multiplied by -0.8 and the position is clamped exactly to the crossed
boundary.  This runs before the goal check, exactly as in the source. -/
def ballMotion (b : Ball) : Ball :=
  let x1 := b.x + b.vx
  let y1 := b.y + b.vy
  let vx1 := b.vx * BASE_FRICTION
  let vy1 := b.vy * BASE_FRICTION
  let vx2 := if x1 < b.radius ∨ x1 > CANVAS_WIDTH - b.radius then vx1 * (-0.8) else vx1
  let x2 := if x1 < b.radius ∨ x1 > CANVAS_WIDTH - b.radius then
      (if x1 < b.radius then b.radius else CANVAS_WIDTH - b.radius) else x1
  let vy2 := if y1 < b.radius ∨ y1 > CANVAS_HEIGHT - b.radius then vy1 * (-0.8) else vy1
  let y2 := if y1 < b.radius ∨ y1 > CANVAS_HEIGHT - b.radius then
      (if y1 < b.radius then b.radius else CANVAS_HEIGHT - b.radius) else y1
  { b with x := x2, y := y2, vx := vx2, vy := vy2, rotation := b.rotation + b.spin }

/-- Goal detection and scoring (source lines 466-478): if the ball is
left of x = 0 the AI counter increments and the ball is recentred with
zero velocity; else if right of x = CANVAS_WIDTH the player counter
increments with the same reset; otherwise nothing changes.  Spin,
rotation, both bodies and the power-up set are untouched. -/
def scoreGoals (s : GameState) : GameState :=
  if s.ball.x < 0 then
    { s with
      score := { s.score with ai := s.score.ai + 1 }
      ball := { s.ball with
        x := CANVAS_WIDTH / 2, y := CANVAS_HEIGHT / 2, vx := 0, vy := 0 } }
  else if s.ball.x > CANVAS_WIDTH then
    { s with
      score := { s.score with player := s.score.player + 1 }
      ball := { s.ball with
        x := CANVAS_WIDTH / 2, y := CANVAS_HEIGHT / 2, vx := 0, vy := 0 } }
  else s

/-- The ball phase of one tick when no player-ball or AI-ball collision
occurs: motion integration with friction and wall reflection (lines
416-431) followed directly by the goal check (lines 466-478), the two
steps of updateGame that touch the ball on a collision-free tick. -/
def tickBallAndScore (s : GameState) : GameState :=
  scoreGoals { s with ball := ballMotion s.ball }

lemma ballMotion_speedSq_le (b : Ball) :
    (ballMotion b).vx ^ 2 + (ballMotion b).vy ^ 2 ≤
      BASE_FRICTION ^ 2 * (b.vx ^ 2 + b.vy ^ 2) := by
  simp only [ballMotion, BASE_FRICTION]
  split_ifs <;>
    nlinarith [sq_nonneg b.vx, sq_nonneg b.vy]

lemma ballMotion_x_bounds (b : Ball)
    (h : b.radius ≤ CANVAS_WIDTH - b.radius) :
    b.radius ≤ (ballMotion b).x ∧ (ballMotion b).x ≤ CANVAS_WIDTH - b.radius := by
  simp only [ballMotion]
  split_ifs with h1 h2
  · exact ⟨le_refl _, h⟩
  · exact ⟨h, le_refl _⟩
  · push_neg at h1
    exact ⟨h1.1, h1.2⟩

/-- Claim C3: on a tick with no player-ball or AI-ball collision, the
ball speed strictly decreases whenever the incoming velocity is
nonzero: friction (factor 0.98) and, on wall bounces, the restitution
factor (0.8) only ever shrink speed, and the goal branch can only zero
it. -/
theorem friction_strict_decrease (s : GameState)
    (hv : ¬(s.ball.vx = 0 ∧ s.ball.vy = 0)) :
    ballSpeed (tickBallAndScore s).ball < ballSpeed s.ball := by
  have hS : 0 < s.ball.vx ^ 2 + s.ball.vy ^ 2 := by
    rcases not_and_or.mp hv with h | h
    · nlinarith [sq_nonneg s.ball.vy, sq_pos_of_ne_zero h]
    · nlinarith [sq_nonneg s.ball.vx, sq_pos_of_ne_zero h]
  have hf : BASE_FRICTION ^ 2 < 1 := by norm_num [BASE_FRICTION]
  have hm := ballMotion_speedSq_le s.ball
  have hlt : (ballMotion s.ball).vx ^ 2 + (ballMotion s.ball).vy ^ 2 <
      s.ball.vx ^ 2 + s.ball.vy ^ 2 := by nlinarith
  unfold tickBallAndScore scoreGoals
  split_ifs
  · have h0 : (0:ℝ) ^ 2 + (0:ℝ) ^ 2 = 0 := by norm_num
    simpa [ballSpeed, h0, Real.sqrt_zero] using Real.sqrt_pos.mpr hS
  · have h0 : (0:ℝ) ^ 2 + (0:ℝ) ^ 2 = 0 := by norm_num
    simpa [ballSpeed, h0, Real.sqrt_zero] using Real.sqrt_pos.mpr hS
  · exact Real.sqrt_lt_sqrt (by positivity) hlt

/-- Witness for C3 at a concrete state: ball moving left at 5 px/tick. -/
def ballW3 : Ball :=
  { x := 400, y := 300, vx := -5, vy := 0
    radius := BALL_RADIUS, spin := 0, rotation := 0 }

/-- Concrete witness state for C3. -/
def stateW3 : GameState :=
  { player := initialPlayer, ai := initialAi, ball := ballW3
    score := { player := 0, ai := 0 }, powerUps := [], timeLeft := 90
    kickPower := 0, isCharging := false, paused := false, gameOver := false }

/-- Witness instantiating friction_strict_decrease at stateW3. -/
theorem friction_strict_decrease_witness :
    ballSpeed (tickBallAndScore stateW3).ball < ballSpeed stateW3.ball :=
  friction_strict_decrease stateW3 (by norm_num [stateW3, ballW3])

/-- Claim C10: the goal-scoring step leaves everything but the ball
position, the ball velocity and the scoring counter unchanged: spin,
rotation accumulator, ball radius, both bodies, the opposing counter,
the power-up set, the clock and the kick charge are preserved. -/
theorem goal_frame_effect (s : GameState)
    (h : s.ball.x < 0 ∨ s.ball.x > CANVAS_WIDTH) :
    (scoreGoals s).player = s.player ∧
    (scoreGoals s).ai = s.ai ∧
    (scoreGoals s).ball.spin = s.ball.spin ∧
    (scoreGoals s).ball.rotation = s.ball.rotation ∧
    (scoreGoals s).ball.radius = s.ball.radius ∧
    (scoreGoals s).powerUps = s.powerUps ∧
    (scoreGoals s).timeLeft = s.timeLeft ∧
    (scoreGoals s).kickPower = s.kickPower ∧
    (s.ball.x < 0 → (scoreGoals s).score.player = s.score.player) ∧
    (s.ball.x > CANVAS_WIDTH → (scoreGoals s).score.ai = s.score.ai) := by
  have hW : (0:ℝ) < CANVAS_WIDTH := by norm_num [CANVAS_WIDTH]
  rcases h with h | h
  · rw [scoreGoals, if_pos h]
    exact ⟨rfl, rfl, rfl, rfl, rfl, rfl, rfl, rfl, fun _ => rfl,
      fun hc => absurd hc (by intro hc; linarith)⟩
  · have hno : ¬ s.ball.x < 0 := by intro hc; linarith
    rw [scoreGoals, if_neg hno, if_pos h]
    exact ⟨rfl, rfl, rfl, rfl, rfl, rfl, rfl, rfl,
      fun hc => absurd hc hno, fun _ => rfl⟩

/-- Concrete witness state for C10: ball pushed past the left line. -/
def stateW10 : GameState :=
  { player := initialPlayer, ai := initialAi
    ball := { x := -5, y := 300, vx := 2, vy := 0
              radius := BALL_RADIUS, spin := 0.3, rotation := 1 }
    score := { player := 1, ai := 2 }, powerUps := [], timeLeft := 50
    kickPower := 3, isCharging := true, paused := false, gameOver := false }

/-- Witness instantiating goal_frame_effect at stateW10. -/
theorem goal_frame_effect_witness :
    (scoreGoals stateW10).player = stateW10.player ∧
    (scoreGoals stateW10).ball.spin = stateW10.ball.spin :=
  ⟨(goal_frame_effect stateW10 (Or.inl (by norm_num [stateW10]))).1,
   (goal_frame_effect stateW10 (Or.inl (by norm_num [stateW10]))).2.2.1⟩

/-- Claim C1 (amended): a horizontal exit at motion-integration time is
handled by the wall reflection, which clamps the ball back inside the
field, so the subsequent goal check never fires for such an exit and
the score is unchanged on a collision-free tick; a goal fires only when
the ball x coordinate is below 0 (AI scores) or above CANVAS_WIDTH
(player scores) when the goal check runs, in which case exactly one
counter increments and the ball is recentred with zero velocity.
Reflection and goal scoring never both fire for the same exit. -/
theorem horizontal_exit_reflects_amended (s : GameState)
    (h0 : 0 < s.ball.radius)
    (hw : s.ball.radius ≤ CANVAS_WIDTH - s.ball.radius) :
    ((tickBallAndScore s).score = s.score ∧
      s.ball.radius ≤ (tickBallAndScore s).ball.x ∧
      (tickBallAndScore s).ball.x ≤ CANVAS_WIDTH - s.ball.radius) ∧
    (s.ball.x < 0 →
      (scoreGoals s).score.ai = s.score.ai + 1 ∧
      (scoreGoals s).score.player = s.score.player ∧
      (scoreGoals s).ball.x = CANVAS_WIDTH / 2 ∧
      (scoreGoals s).ball.y = CANVAS_HEIGHT / 2 ∧
      (scoreGoals s).ball.vx = 0 ∧ (scoreGoals s).ball.vy = 0) ∧
    (s.ball.x > CANVAS_WIDTH →
      (scoreGoals s).score.player = s.score.player + 1 ∧
      (scoreGoals s).score.ai = s.score.ai ∧
      (scoreGoals s).ball.x = CANVAS_WIDTH / 2 ∧
      (scoreGoals s).ball.y = CANVAS_HEIGHT / 2 ∧
      (scoreGoals s).ball.vx = 0 ∧ (scoreGoals s).ball.vy = 0) := by
  have hb := ballMotion_x_bounds s.ball hw
  have hx0 : ¬ (ballMotion s.ball).x < 0 := by
    have := hb.1; intro hc; linarith
  have hxW : ¬ (ballMotion s.ball).x > CANVAS_WIDTH := by
    have := hb.2; intro hc; linarith
  refine ⟨?_, ?_, ?_⟩
  · unfold tickBallAndScore
    rw [scoreGoals, if_neg hx0, if_neg hxW]
    exact ⟨rfl, hb.1, hb.2⟩
  · intro h
    have hW : (0:ℝ) < CANVAS_WIDTH := by norm_num [CANVAS_WIDTH]
    rw [scoreGoals, if_pos h]
    exact ⟨rfl, rfl, rfl, rfl, rfl, rfl⟩
  · intro h
    have hW : (0:ℝ) < CANVAS_WIDTH := by norm_num [CANVAS_WIDTH]
    have hno : ¬ s.ball.x < 0 := by intro hc; linarith
    rw [scoreGoals, if_neg hno, if_pos h]
    exact ⟨rfl, rfl, rfl, rfl, rfl, rfl⟩

/-- Ball used in the C1 counterexample: x = 4, vx = -5, so integration
puts it at x = -1, past the left goal line. -/
def ballC1 : Ball :=
  { x := 4, y := 300, vx := -5, vy := 0
    radius := BALL_RADIUS, spin := 0, rotation := 0 }

/-- The C1 counterexample state: collision-free tick, scores 0-0. -/
def stateC1 : GameState :=
  { player := initialPlayer, ai := initialAi, ball := ballC1
    score := { player := 0, ai := 0 }, powerUps := [], timeLeft := 100
    kickPower := 0, isCharging := false, paused := false, gameOver := false }

/-- Counterexample to C1 as stated: the ball position after motion
integration is -1 < 0, yet the AI counter does not increment and the
ball is not reset to the centre: the wall reflection fires first,
clamping x to the ball radius (12) and reflecting vx to 3.92. -/
theorem horizontal_exit_claim_cex :
    stateC1.ball.x + stateC1.ball.vx = -1 ∧
    (tickBallAndScore stateC1).score.ai = stateC1.score.ai ∧
    (tickBallAndScore stateC1).ball.x = 12 ∧
    (tickBallAndScore stateC1).ball.vx = 3.92 := by
  refine ⟨by norm_num [stateC1, ballC1], ?_, ?_, ?_⟩ <;>
    norm_num [stateC1, ballC1, tickBallAndScore, ballMotion, scoreGoals,
      BALL_RADIUS, BASE_FRICTION, CANVAS_WIDTH, CANVAS_HEIGHT]

/-- Witness instantiating horizontal_exit_reflects_amended at stateC1. -/
theorem horizontal_exit_reflects_witness :
    (tickBallAndScore stateC1).score = stateC1.score :=
  (horizontal_exit_reflects_amended stateC1
    (by norm_num [stateC1, ballC1, BALL_RADIUS])
    (by norm_num [stateC1, ballC1, BALL_RADIUS, CANVAS_WIDTH])).1.1

/-- Speed (velocity magnitude) of a body. -/
def speedOf (p : GameObject) : ℝ := Real.sqrt (p.vx ^ 2 + p.vy ^ 2)

/-- Player motion integration (source lines 379-399): per-axis target
of -1/0/+1 scaled by (shift ? maxSpeed : speed), normalised by sqrt 2
when both axes are active; velocity blended toward the target by the
acceleration coefficient; an inactive axis additionally multiplies its
velocity by the deceleration coefficient; position += velocity and is
clamped to [radius, dimension - radius] on both axes. -/
def playerMotion (keys : Keys) (p : GameObject) : GameObject :=
  let targetVx : ℝ := (if keys.left then -1 else 0) + (if keys.right then 1 else 0)
  let targetVy : ℝ := (if keys.up then -1 else 0) + (if keys.down then 1 else 0)
  let currentSpeed := if keys.shift then p.maxSpeed else p.speed
  let vx1 := if targetVx ≠ 0 ∧ targetVy ≠ 0 then
      p.vx + (targetVx * currentSpeed / Real.sqrt 2 - p.vx) * p.acceleration
    else p.vx + (targetVx * currentSpeed - p.vx) * p.acceleration
  let vy1 := if targetVx ≠ 0 ∧ targetVy ≠ 0 then
      p.vy + (targetVy * currentSpeed / Real.sqrt 2 - p.vy) * p.acceleration
    else p.vy + (targetVy * currentSpeed - p.vy) * p.acceleration
  let vx2 := if targetVx = 0 then vx1 * p.deceleration else vx1
  let vy2 := if targetVy = 0 then vy1 * p.deceleration else vy1
  { p with
    vx := vx2
    vy := vy2
    x := max p.radius (min (CANVAS_WIDTH - p.radius) (p.x + vx2))
    y := max p.radius (min (CANVAS_HEIGHT - p.radius) (p.y + vy2)) }

/-- AI steering and motion (source lines 401-414): seek the ball along
the unit vector from AI to ball scaled by the fixed AI speed, with the
same exponential blending, but only when the AI-to-ball distance is
strictly positive; otherwise velocity and facing are held.  Position
update and clamping follow unconditionally. -/
def aiMotion (ball : Ball) (ai : GameObject) : GameObject :=
  let dx := ball.x - ai.x
  let dy := ball.y - ai.y
  let dist := Real.sqrt (dx * dx + dy * dy)
  let vx1 := if dist > 0 then ai.vx + (dx / dist * ai.speed - ai.vx) * ai.acceleration
    else ai.vx
  let vy1 := if dist > 0 then ai.vy + (dy / dist * ai.speed - ai.vy) * ai.acceleration
    else ai.vy
  let dir1 := if dist > 0 then (if vx1 > 0 then (1:ℤ) else -1) else ai.direction
  { ai with
    vx := vx1
    vy := vy1
    direction := dir1
    x := max ai.radius (min (CANVAS_WIDTH - ai.radius) (ai.x + vx1))
    y := max ai.radius (min (CANVAS_HEIGHT - ai.radius) (ai.y + vy1)) }

/-- Circle-circle overlap test of the source (checkCollision closure):
distance between centres strictly below the sum of the radii. -/
def checkCollision (p : GameObject) (b : Ball) : Prop :=
  Real.sqrt ((p.x - b.x) * (p.x - b.x) + (p.y - b.y) * (p.y - b.y)) <
    p.radius + b.radius

/-- Kick-charge accumulation (source lines 371-375): while charging and
below MAX_KICK_POWER the charge grows by KICK_CHARGE_RATE, capped at
MAX_KICK_POWER; when not charging any positive charge resets to 0. -/
def chargeStep (isCharging : Bool) (kickPower : ℝ) : ℝ :=
  if isCharging ∧ kickPower < MAX_KICK_POWER then
    min (kickPower + KICK_CHARGE_RATE) MAX_KICK_POWER
  else if ¬isCharging ∧ kickPower > 0 then 0
  else kickPower

/-- Kick resolution (source lines 442-447): with angle = atan2 dy dx
for the player-to-ball vector (dx, dy), the source sets ball velocity
to (cos angle, sin angle) scaled by power = (kickPower or 10 when the
charge is zero), and spin to player.vx · cos (angle + pi/2) · 0.1.
Here cos (atan2 dy dx) = dx / sqrt (dx^2 + dy^2) and
sin (atan2 dy dx) = dy / sqrt (dx^2 + dy^2) whenever (dx, dy) is
nonzero, while atan2 0 0 = 0 gives the pair (1, 0); and
cos (angle + pi/2) = - sin angle. -/
def kickBall (kickPower : ℝ) (p : GameObject) (b : Ball) : Ball :=
  let dx := b.x - p.x
  let dy := b.y - p.y
  let d := Real.sqrt (dx ^ 2 + dy ^ 2)
  let c := if d = 0 then 1 else dx / d
  let sn := if d = 0 then 0 else dy / d
  let power := if kickPower = 0 then 10 else kickPower
  { b with vx := c * power, vy := sn * power, spin := p.vx * (-sn) * 0.1 }

lemma clamp_mem (a b x : ℝ) (h : a ≤ b) :
    a ≤ max a (min b x) ∧ max a (min b x) ≤ b :=
  ⟨le_max_left _ _, max_le h (min_le_left _ _)⟩

/-- Claim C4: after the clamping step of motion integration, the player
position satisfies radius ≤ x ≤ width - radius and
radius ≤ y ≤ height - radius (hard boundary, not a bounce), and the
same holds for the AI body, for every input and every pre-state whose
radius fits the field (every reachable radius is at most 45). -/
theorem clamp_bounds (keys : Keys) (p : GameObject) (ball : Ball) (ai : GameObject)
    (hpx : p.radius ≤ CANVAS_WIDTH - p.radius)
    (hpy : p.radius ≤ CANVAS_HEIGHT - p.radius)
    (hax : ai.radius ≤ CANVAS_WIDTH - ai.radius)
    (hay : ai.radius ≤ CANVAS_HEIGHT - ai.radius) :
    (p.radius ≤ (playerMotion keys p).x ∧
      (playerMotion keys p).x ≤ CANVAS_WIDTH - p.radius) ∧
    (p.radius ≤ (playerMotion keys p).y ∧
      (playerMotion keys p).y ≤ CANVAS_HEIGHT - p.radius) ∧
    (ai.radius ≤ (aiMotion ball ai).x ∧
      (aiMotion ball ai).x ≤ CANVAS_WIDTH - ai.radius) ∧
    (ai.radius ≤ (aiMotion ball ai).y ∧
      (aiMotion ball ai).y ≤ CANVAS_HEIGHT - ai.radius) := by
  refine ⟨?_, ?_, ?_, ?_⟩ <;> simp only [playerMotion, aiMotion]
  · exact clamp_mem _ _ _ hpx
  · exact clamp_mem _ _ _ hpy
  · exact clamp_mem _ _ _ hax
  · exact clamp_mem _ _ _ hay

/-- Witness instantiating clamp_bounds at the initial bodies with all
keys released. -/
theorem clamp_bounds_witness :
    initialPlayer.radius ≤
      (playerMotion ⟨false, false, false, false, false, false⟩ initialPlayer).x :=
  (clamp_bounds ⟨false, false, false, false, false, false⟩ initialPlayer
    initialBall initialAi
    (by norm_num [initialPlayer, PLAYER_RADIUS, CANVAS_WIDTH])
    (by norm_num [initialPlayer, PLAYER_RADIUS, CANVAS_HEIGHT])
    (by norm_num [initialAi, PLAYER_RADIUS, CANVAS_WIDTH])
    (by norm_num [initialAi, PLAYER_RADIUS, CANVAS_HEIGHT])).1.1

/-- Claim C9: the AI steering division by the AI-to-ball distance is
guarded: when ball and AI coincide the AI velocity is held unchanged,
and in every other state the divisor is strictly positive, so the
steering computation is total with no division by zero. -/
theorem ai_steering_guard (ball : Ball) (ai : GameObject) :
    ((ball.x = ai.x ∧ ball.y = ai.y) →
      (aiMotion ball ai).vx = ai.vx ∧ (aiMotion ball ai).vy = ai.vy) ∧
    (¬(ball.x = ai.x ∧ ball.y = ai.y) →
      0 < Real.sqrt ((ball.x - ai.x) * (ball.x - ai.x) +
        (ball.y - ai.y) * (ball.y - ai.y))) := by
  constructor
  · rintro ⟨hx, hy⟩
    simp [aiMotion, hx, hy]
  · intro h
    refine Real.sqrt_pos.mpr ?_
    rcases not_and_or.mp h with h | h
    · have hne : ball.x - ai.x ≠ 0 := sub_ne_zero.mpr h
      nlinarith [mul_self_pos.mpr hne, mul_self_nonneg (ball.y - ai.y)]
    · have hne : ball.y - ai.y ≠ 0 := sub_ne_zero.mpr h
      nlinarith [mul_self_pos.mpr hne, mul_self_nonneg (ball.x - ai.x)]

/-- Ball placed exactly on the initial AI position, for the C9 witness. -/
def ballW9 : Ball :=
  { x := CANVAS_WIDTH / 4 * 3, y := CANVAS_HEIGHT / 2, vx := 0, vy := 0
    radius := BALL_RADIUS, spin := 0, rotation := 0 }

/-- Witness instantiating ai_steering_guard with coinciding centres. -/
theorem ai_steering_guard_witness :
    (aiMotion ballW9 initialAi).vx = initialAi.vx :=
  ((ai_steering_guard ballW9 initialAi).1 ⟨rfl, rfl⟩).1

lemma kickBall_speed_eq (kp : ℝ) (p : GameObject) (b : Ball)
    (hP : 0 < (if kp = 0 then (10:ℝ) else kp)) :
    ballSpeed (kickBall kp p b) = (if kp = 0 then 10 else kp) := by
  simp only [kickBall, ballSpeed]
  set P : ℝ := if kp = 0 then 10 else kp with hPdef
  by_cases hz : Real.sqrt ((b.x - p.x) ^ 2 + (b.y - p.y) ^ 2) = 0
  · rw [if_pos hz, if_pos hz, one_mul, zero_mul]
    have harg : P ^ 2 + (0:ℝ) ^ 2 = P ^ 2 := by ring
    rw [harg, Real.sqrt_sq hP.le]
  · rw [if_neg hz, if_neg hz]
    set D : ℝ := Real.sqrt ((b.x - p.x) ^ 2 + (b.y - p.y) ^ 2) with hDdef
    have hD2 : D ^ 2 = (b.x - p.x) ^ 2 + (b.y - p.y) ^ 2 :=
      Real.sq_sqrt (by positivity)
    have hkey : ((b.x - p.x) / D * P) ^ 2 + ((b.y - p.y) / D * P) ^ 2 =
        ((b.x - p.x) ^ 2 + (b.y - p.y) ^ 2) / D ^ 2 * P ^ 2 := by ring
    rw [hkey, ← hD2, div_self (pow_ne_zero 2 hz), one_mul, Real.sqrt_sq hP.le]

/-- Claim C2 (amended): while the player overlaps the ball with the
kick button held, the ball velocity is set (not added: the result is
independent of the incoming ball velocity) along the player-to-ball
vector with magnitude exactly the charged kick power, falling back to
10 when no charge is accumulated.  Given a charge in [0, 20] the
magnitude is always positive and at most 20, but it is at least 10 only
when the charge is zero (fallback) or itself at least 10; a partial
charge in (0, 10) is passed through unchanged.  The charge itself stays
in [0, 20] under the accumulation step. -/
theorem kick_magnitude_amended (kp : ℝ) (p : GameObject) (b : Ball)
    (hcol : checkCollision p b) (h0 : 0 ≤ kp) (h20 : kp ≤ MAX_KICK_POWER) :
    ballSpeed (kickBall kp p b) = (if kp = 0 then 10 else kp) ∧
    0 < ballSpeed (kickBall kp p b) ∧
    ballSpeed (kickBall kp p b) ≤ MAX_KICK_POWER ∧
    ((10:ℝ) ≤ ballSpeed (kickBall kp p b) ↔ (kp = 0 ∨ 10 ≤ kp)) ∧
    (∀ w z : ℝ, kickBall kp p { b with vx := w, vy := z } = kickBall kp p b) ∧
    (∀ ch : Bool, 0 ≤ chargeStep ch kp ∧ chargeStep ch kp ≤ MAX_KICK_POWER) := by
  have hM : MAX_KICK_POWER = (20:ℝ) := rfl
  have hP : 0 < (if kp = 0 then (10:ℝ) else kp) := by
    split_ifs with h
    · norm_num
    · exact lt_of_le_of_ne h0 (Ne.symm h)
  have hs := kickBall_speed_eq kp p b hP
  refine ⟨hs, ?_, ?_, ?_, ?_, ?_⟩
  · rw [hs]; exact hP
  · rw [hs, hM]
    split_ifs with h
    · norm_num
    · rw [hM] at h20; exact h20
  · rw [hs]
    split_ifs with h
    · simp [h]
    · constructor
      · exact fun hge => Or.inr hge
      · rintro (hc | hc)
        · exact absurd hc h
        · exact hc
  · intro w z
    simp [kickBall]
  · intro ch
    unfold chargeStep
    split_ifs with h1 h2
    · constructor
      · refine le_min ?_ (by rw [hM]; norm_num)
        have : (0:ℝ) ≤ KICK_CHARGE_RATE := by norm_num [KICK_CHARGE_RATE]
        linarith
      · exact min_le_right _ _
    · exact ⟨le_refl 0, by rw [hM]; norm_num⟩
    · exact ⟨h0, h20⟩

/-- Player body for the C2 concrete states: at (100, 300). -/
def playerC2 : GameObject := { initialPlayer with x := 100, y := 300 }

/-- Ball for the C2 concrete states: at (110, 300), in contact. -/
def ballC2 : Ball :=
  { x := 110, y := 300, vx := 0, vy := 0
    radius := BALL_RADIUS, spin := 0, rotation := 0 }

lemma collisionC2 : checkCollision playerC2 ballC2 := by
  have h100 : Real.sqrt (100:ℝ) = 10 := by
    rw [show (100:ℝ) = 10 ^ 2 by norm_num, Real.sqrt_sq (by norm_num)]
  unfold checkCollision playerC2 ballC2 initialPlayer
  norm_num [BALL_RADIUS, PLAYER_RADIUS, h100]

/-- Counterexample to C2 as stated: a reachable partial charge of 0.5
(one charging tick) with the player in contact produces a kick of
magnitude 0.5, which is not at least the claimed minimum of 10. -/
theorem kick_magnitude_cex :
    checkCollision playerC2 ballC2 ∧
    ballSpeed (kickBall 0.5 playerC2 ballC2) = 0.5 ∧
    ¬((10:ℝ) ≤ ballSpeed (kickBall 0.5 playerC2 ballC2)) := by
  have hs := kickBall_speed_eq 0.5 playerC2 ballC2 (by norm_num)
  rw [if_neg (by norm_num)] at hs
  exact ⟨collisionC2, hs, by rw [hs]; norm_num⟩

/-- Witness instantiating kick_magnitude_amended at charge 15. -/
theorem kick_magnitude_witness :
    0 < ballSpeed (kickBall 15 playerC2 ballC2) :=
  (kick_magnitude_amended 15 playerC2 ballC2 collisionC2 (by norm_num)
    (by norm_num [MAX_KICK_POWER])).2.1

/-- Attribute effect of a picked-up power-up (applyPowerUp, source
lines 325-340): speed multiplies maxSpeed by 1.5, giant multiplies the
radius by 1.5, sticky is a no-op.  The activation timestamp stamping of
the same source function is handled at the call site (pickupStep). -/
def applyPowerUp (p : GameObject) : PUType → GameObject
  | PUType.speed => { p with maxSpeed := p.maxSpeed * 1.5 }
  | PUType.sticky => p
  | PUType.giant => { p with radius := p.radius * 1.5 }

/-- Expiry effect (updatePowerUps switch, source lines 347-354): an
absolute reset of the affected attribute to its canonical base value,
not an undo of the multiplier. -/
def expireReset (p : GameObject) : PUType → GameObject
  | PUType.speed => { p with maxSpeed := BASE_PLAYER_SPEED * SPRINT_MULTIPLIER }
  | PUType.sticky => p
  | PUType.giant => { p with radius := PLAYER_RADIUS }

/-- The expiry test of updatePowerUps (source lines 344-345): an
inactive power-up or one without an activation timestamp is kept
untouched; otherwise it expires once now - startTime reaches its
duration. -/
def puExpired (now : ℕ) (pu : PowerUp) : Bool :=
  match pu.startTime with
  | none => false
  | some t => pu.active && decide (pu.duration ≤ now - t)

/-- The expiry pass (updatePowerUps, source lines 342-359): the list is
filtered in order; each expired power-up resets the affected player
attribute to its base value and is dropped, all others are kept. -/
def updatePowerUps (now : ℕ) (p : GameObject) :
    List PowerUp → GameObject × List PowerUp
  | [] => (p, [])
  | pu :: rest =>
    if puExpired now pu then
      updatePowerUps now (expireReset p pu.type) rest
    else
      let r := updatePowerUps now p rest
      (r.1, pu :: r.2)

lemma updatePowerUps_snd (now : ℕ) (l : List PowerUp) : ∀ p : GameObject,
    (updatePowerUps now p l).2 = l.filter (fun pu => !puExpired now pu) := by
  induction l with
  | nil => intro p; rfl
  | cons pu rest ih =>
    intro p
    by_cases h : puExpired now pu
    · simp [updatePowerUps, h, List.filter_cons, ih]
    · simp [updatePowerUps, h, List.filter_cons, ih]

lemma updatePowerUps_maxSpeed_cases (now : ℕ) (l : List PowerUp) :
    ∀ p : GameObject,
    (updatePowerUps now p l).1.maxSpeed = p.maxSpeed ∨
    (updatePowerUps now p l).1.maxSpeed = BASE_PLAYER_SPEED * SPRINT_MULTIPLIER := by
  induction l with
  | nil => intro p; exact Or.inl rfl
  | cons pu rest ih =>
    intro p
    by_cases h : puExpired now pu
    · rw [updatePowerUps, if_pos h]
      rcases ih (expireReset p pu.type) with hc | hc
      · rw [hc]
        cases pu.type
        · right; rfl
        · left; rfl
        · left; rfl
      · exact Or.inr hc
    · rw [updatePowerUps, if_neg h]
      exact ih p

lemma updatePowerUps_radius_cases (now : ℕ) (l : List PowerUp) :
    ∀ p : GameObject,
    (updatePowerUps now p l).1.radius = p.radius ∨
    (updatePowerUps now p l).1.radius = PLAYER_RADIUS := by
  induction l with
  | nil => intro p; exact Or.inl rfl
  | cons pu rest ih =>
    intro p
    by_cases h : puExpired now pu
    · rw [updatePowerUps, if_pos h]
      rcases ih (expireReset p pu.type) with hc | hc
      · rw [hc]
        cases pu.type
        · left; rfl
        · left; rfl
        · right; rfl
      · exact Or.inr hc
    · rw [updatePowerUps, if_neg h]
      exact ih p

lemma updatePowerUps_expired_speed (now : ℕ) (l : List PowerUp) :
    ∀ p : GameObject,
    (∃ pu ∈ l, puExpired now pu = true ∧ pu.type = PUType.speed) →
    (updatePowerUps now p l).1.maxSpeed = BASE_PLAYER_SPEED * SPRINT_MULTIPLIER := by
  induction l with
  | nil =>
    intro p h
    rcases h with ⟨pu, hmem, _⟩
    cases hmem
  | cons pu0 rest ih =>
    intro p h
    rcases h with ⟨pu, hmem, hexp, hty⟩
    rcases List.mem_cons.mp hmem with heq | hmem'
    · subst heq
      rw [updatePowerUps, if_pos hexp]
      rcases updatePowerUps_maxSpeed_cases now rest (expireReset p pu.type) with hc | hc
      · rw [hc, hty]; rfl
      · exact hc
    · by_cases h0 : puExpired now pu0
      · rw [updatePowerUps, if_pos h0]
        exact ih (expireReset p pu0.type) ⟨pu, hmem', hexp, hty⟩
      · rw [updatePowerUps, if_neg h0]
        exact ih p ⟨pu, hmem', hexp, hty⟩

lemma updatePowerUps_expired_giant (now : ℕ) (l : List PowerUp) :
    ∀ p : GameObject,
    (∃ pu ∈ l, puExpired now pu = true ∧ pu.type = PUType.giant) →
    (updatePowerUps now p l).1.radius = PLAYER_RADIUS := by
  induction l with
  | nil =>
    intro p h
    rcases h with ⟨pu, hmem, _⟩
    cases hmem
  | cons pu0 rest ih =>
    intro p h
    rcases h with ⟨pu, hmem, hexp, hty⟩
    rcases List.mem_cons.mp hmem with heq | hmem'
    · subst heq
      rw [updatePowerUps, if_pos hexp]
      rcases updatePowerUps_radius_cases now rest (expireReset p pu.type) with hc | hc
      · rw [hc, hty]; rfl
      · exact hc
    · by_cases h0 : puExpired now pu0
      · rw [updatePowerUps, if_pos h0]
        exact ih (expireReset p pu0.type) ⟨pu, hmem', hexp, hty⟩
      · rw [updatePowerUps, if_neg h0]
        exact ih p ⟨pu, hmem', hexp, hty⟩

/-- Claim C6: once an applied power-up reaches its duration, the expiry
pass resets the affected attribute to its canonical base value
(maxSpeed to 7.5, radius to 20) as an absolute reset - so the attribute
equals the base value afterwards no matter how many power-ups of that
type were applied - and the expired power-up is removed from the active
set (the kept list is exactly the filter of the unexpired ones). -/
theorem powerup_expiry_reset (now : ℕ) (p : GameObject) (l : List PowerUp) :
    (updatePowerUps now p l).2 = l.filter (fun pu => !puExpired now pu) ∧
    (∀ pu ∈ l, puExpired now pu = true → pu ∉ (updatePowerUps now p l).2) ∧
    ((∃ pu ∈ l, puExpired now pu = true ∧ pu.type = PUType.speed) →
      (updatePowerUps now p l).1.maxSpeed = 7.5) ∧
    ((∃ pu ∈ l, puExpired now pu = true ∧ pu.type = PUType.giant) →
      (updatePowerUps now p l).1.radius = 20) := by
  refine ⟨updatePowerUps_snd now l p, ?_, ?_, ?_⟩
  · intro pu _ hexp
    rw [updatePowerUps_snd now l p]
    simp [List.mem_filter, hexp]
  · intro h
    rw [updatePowerUps_expired_speed now l p h]
    norm_num [BASE_PLAYER_SPEED, SPRINT_MULTIPLIER]
  · intro h
    rw [updatePowerUps_expired_giant now l p h]
    norm_num [PLAYER_RADIUS]

/-- An applied speed power-up that has outlived its duration, for the
C6 witness. -/
def puW6 : PowerUp :=
  { x := 300, y := 200, type := PUType.speed, active := true
    duration := POWER_UP_DURATION, startTime := some 500 }

/-- Witness instantiating powerup_expiry_reset at time 6000 on a player
with a doubled-up maxSpeed. -/
theorem powerup_expiry_reset_witness :
    (updatePowerUps 6000 { initialPlayer with maxSpeed := 16.875 }
      [puW6]).1.maxSpeed = 7.5 :=
  (powerup_expiry_reset 6000 { initialPlayer with maxSpeed := 16.875 }
    [puW6]).2.2.1 ⟨puW6, by simp, by decide, rfl⟩

/-- Type selection of spawnPowerUp: types[floor(tr·3)] over the list
[speed, sticky, giant], for a roll tr drawn from [0, 1). -/
def pickType (tr : ℝ) : PUType :=
  if ⌊tr * 3⌋ = 0 then PUType.speed
  else if ⌊tr * 3⌋ = 1 then PUType.sticky
  else PUType.giant

/-- Power-up spawning (spawnPowerUp, source lines 311-323): when the
per-tick roll is below 0.005 and fewer than 2 power-ups are pending,
append a new active power-up of a random type at a random position
inset 20 from each edge, with full duration and no activation
timestamp.  The Math.random() draws of the source are passed as the
parameters roll, r1, r2, tr, each in [0, 1). -/
def spawnPowerUp (roll r1 r2 tr : ℝ) (l : List PowerUp) : List PowerUp :=
  if roll < 0.005 ∧ l.length < 2 then
    l ++ [{ x := r1 * (CANVAS_WIDTH - 40) + 20
            y := r2 * (CANVAS_HEIGHT - 40) + 20
            type := pickType tr
            active := true
            duration := POWER_UP_DURATION
            startTime := none }]
  else l

/-- Claim C7: a power-up is spawned only when fewer than 2 are pending,
so a pending count of at most 2 is preserved (and a full set is left
unchanged); a spawned power-up has an in-bounds position inset 20 from
every edge, is active, carries the full duration and no activation
timestamp. -/
theorem powerup_spawn_cap (roll r1 r2 tr : ℝ) (l : List PowerUp)
    (hl : l.length ≤ 2) (h10 : 0 ≤ r1) (h11 : r1 < 1)
    (h20 : 0 ≤ r2) (h21 : r2 < 1) :
    (spawnPowerUp roll r1 r2 tr l).length ≤ 2 ∧
    (2 ≤ l.length → spawnPowerUp roll r1 r2 tr l = l) ∧
    (∀ pu ∈ spawnPowerUp roll r1 r2 tr l, pu ∉ l →
      20 ≤ pu.x ∧ pu.x ≤ CANVAS_WIDTH - 20 ∧
      20 ≤ pu.y ∧ pu.y ≤ CANVAS_HEIGHT - 20 ∧
      pu.active = true ∧ pu.duration = POWER_UP_DURATION ∧
      pu.startTime = none) := by
  unfold spawnPowerUp
  split_ifs with h
  · refine ⟨?_, ?_, ?_⟩
    · rw [List.length_append, List.length_singleton]
      omega
    · intro hfull
      omega
    · intro pu hmem hnot
      rcases List.mem_append.mp hmem with hm | hm
      · exact absurd hm hnot
      · rw [List.mem_singleton] at hm
        subst hm
        norm_num [CANVAS_WIDTH, CANVAS_HEIGHT]
        refine ⟨by nlinarith, by nlinarith, by nlinarith, by nlinarith⟩
  · exact ⟨hl, fun _ => rfl, fun pu hm hn => absurd hm hn⟩

/-- Witness instantiating powerup_spawn_cap on an empty pending set. -/
theorem powerup_spawn_cap_witness :
    (spawnPowerUp 0.001 0.5 0.5 0.5 []).length ≤ 2 :=
  (powerup_spawn_cap 0.001 0.5 0.5 0.5 [] (by simp) (by norm_num)
    (by norm_num) (by norm_num) (by norm_num)).1

/-- The pickup pass (source lines 480-489): power-ups are scanned in
order; an active one without an activation timestamp whose distance to
the player centre is below player.radius + 10 applies its attribute
effect to the player (applyPowerUp) and is stamped with the current
time; the others are left as they are. -/
def pickupStep (now : ℕ) (p : GameObject) :
    List PowerUp → GameObject × List PowerUp
  | [] => (p, [])
  | pu :: rest =>
    if pu.active = true ∧ pu.startTime = none ∧
        Real.sqrt ((p.x - pu.x) * (p.x - pu.x) + (p.y - pu.y) * (p.y - pu.y)) <
          p.radius + 10 then
      let r := pickupStep now (applyPowerUp p pu.type) rest
      (r.1, { pu with startTime := some now } :: r.2)
    else
      let r := pickupStep now p rest
      (r.1, pu :: r.2)

/-- The projection of the world state that the player body and the
power-up set evolve on: nothing else in updateGame writes to either. -/
@[ext]
structure PlayerWorld where
  player : GameObject
  powerUps : List PowerUp

/-- The per-tick external inputs of the player/power-up subsystem: the
key state, the millisecond clock read by Date.now(), and the four
Math.random() draws of spawnPowerUp. -/
@[ext]
structure TickInput where
  keys : Keys
  now : ℕ
  roll : ℝ
  r1 : ℝ
  r2 : ℝ
  tr : ℝ

/-- One updateGame tick projected onto the player body and the power-up
set, in source order: player motion integration (lines 379-399), the
pickup pass (lines 480-489), the expiry pass (line 491), and the spawn
roll (line 573). -/
def playerPowerTick (s : PlayerWorld) (i : TickInput) : PlayerWorld :=
  let p1 := playerMotion i.keys s.player
  let a := pickupStep i.now p1 s.powerUps
  let b := updatePowerUps i.now a.1 a.2
  { player := b.1, powerUps := spawnPowerUp i.roll i.r1 i.r2 i.tr b.2 }

/-- Reachability of a player/power-up state from the initial world by
ticks with arbitrary inputs. -/
inductive PReach : PlayerWorld → Prop
  | init : PReach { player := initialPlayer, powerUps := [] }
  | step (s : PlayerWorld) (i : TickInput) : PReach s → PReach (playerPowerTick s i)

lemma axis_target_sq_le_one (a b : Bool) :
    ((if a then (-1:ℝ) else 0) + (if b then 1 else 0)) ^ 2 ≤ 1 := by
  cases a <;> cases b <;> norm_num

lemma blend_sq_le (vx vy tx ty m a : ℝ) (hv : vx ^ 2 + vy ^ 2 ≤ m ^ 2)
    (ht : tx ^ 2 + ty ^ 2 ≤ m ^ 2) (ha0 : 0 ≤ a) (ha1 : a ≤ 1) :
    (vx + (tx - vx) * a) ^ 2 + (vy + (ty - vy) * a) ^ 2 ≤ m ^ 2 := by
  have hm2 : (0:ℝ) ≤ m ^ 2 := le_trans (by positivity) hv
  have hu : vx * tx + vy * ty ≤ m ^ 2 := by
    nlinarith [sq_nonneg (vx * ty - vy * tx),
      mul_nonneg (add_nonneg (sq_nonneg vx) (sq_nonneg vy)) (sub_nonneg.mpr ht),
      mul_nonneg (sub_nonneg.mpr hv) hm2, hm2]
  nlinarith [mul_nonneg (sq_nonneg (1 - a)) (sub_nonneg.mpr hv),
    mul_nonneg (sq_nonneg a) (sub_nonneg.mpr ht),
    mul_nonneg (mul_nonneg ha0 (sub_nonneg.mpr ha1)) (sub_nonneg.mpr hu)]

lemma decel_sq_le (v d : ℝ) (hd0 : 0 ≤ d) (hd1 : d ≤ 1) :
    (v * d) ^ 2 ≤ v ^ 2 := by
  nlinarith [mul_nonneg (mul_nonneg (sq_nonneg v) (sub_nonneg.mpr hd1))
    (by linarith : (0:ℝ) ≤ 1 + d)]

/-- Claim C5 (amended): the motion-integration step itself preserves
the bound speed ≤ maxSpeed - for any key input, including diagonal
sprinting, a player whose speed is within its current maxSpeed stays
within it, given the standing attribute facts (acceleration and
deceleration coefficients in [0, 1] and base speed within maxSpeed) -
and the step does not change maxSpeed.  The unconditional claim fails
across a speed power-up expiry, which lowers maxSpeed below an already
attained speed (see the counterexample). -/
theorem speed_le_maxSpeed_amended (keys : Keys) (p : GameObject)
    (hacc0 : 0 ≤ p.acceleration) (hacc1 : p.acceleration ≤ 1)
    (hdec0 : 0 ≤ p.deceleration) (hdec1 : p.deceleration ≤ 1)
    (hsp0 : 0 ≤ p.speed) (hsp : p.speed ≤ p.maxSpeed)
    (hv : speedOf p ≤ p.maxSpeed) :
    speedOf (playerMotion keys p) ≤ p.maxSpeed ∧
    (playerMotion keys p).maxSpeed = p.maxSpeed := by
  have hm0 : 0 ≤ p.maxSpeed := le_trans hsp0 hsp
  have hv2 : p.vx ^ 2 + p.vy ^ 2 ≤ p.maxSpeed ^ 2 :=
    (Real.sqrt_le_left hm0).mp hv
  refine ⟨?_, rfl⟩
  have key : (playerMotion keys p).vx ^ 2 + (playerMotion keys p).vy ^ 2 ≤
      p.maxSpeed ^ 2 := by
    simp only [playerMotion]
    set tvx : ℝ := (if keys.left then -1 else 0) + (if keys.right then 1 else 0)
      with htvx
    set tvy : ℝ := (if keys.up then -1 else 0) + (if keys.down then 1 else 0)
      with htvy
    set cs : ℝ := if keys.shift then p.maxSpeed else p.speed with hcs
    have hcs0 : 0 ≤ cs := by
      rw [hcs]; split_ifs; exacts [hm0, hsp0]
    have hcsm : cs ≤ p.maxSpeed := by
      rw [hcs]; split_ifs; exacts [le_refl _, hsp]
    have hcs2 : cs ^ 2 ≤ p.maxSpeed ^ 2 := by nlinarith
    have htvx2 : tvx ^ 2 ≤ 1 := by rw [htvx]; exact axis_target_sq_le_one _ _
    have htvy2 : tvy ^ 2 ≤ 1 := by rw [htvy]; exact axis_target_sq_le_one _ _
    clear_value tvx tvy cs
    by_cases hdiag : tvx ≠ 0 ∧ tvy ≠ 0
    · simp only [if_pos hdiag]
      have hs2 : Real.sqrt 2 ^ 2 = 2 := Real.sq_sqrt (by norm_num)
      have ht : (tvx * cs / Real.sqrt 2) ^ 2 + (tvy * cs / Real.sqrt 2) ^ 2 ≤
          p.maxSpeed ^ 2 := by
        have hexp : (tvx * cs / Real.sqrt 2) ^ 2 + (tvy * cs / Real.sqrt 2) ^ 2 =
            (tvx ^ 2 + tvy ^ 2) * cs ^ 2 / 2 := by
          rw [div_pow, div_pow, hs2]; ring
        rw [hexp]
        nlinarith [mul_nonneg (sub_nonneg.mpr htvx2) (sq_nonneg cs),
          mul_nonneg (sub_nonneg.mpr htvy2) (sq_nonneg cs)]
      have hblend := blend_sq_le p.vx p.vy (tvx * cs / Real.sqrt 2)
        (tvy * cs / Real.sqrt 2) p.maxSpeed p.acceleration hv2 ht hacc0 hacc1
      have hvx0 : ¬ tvx = 0 := hdiag.1
      have hvy0 : ¬ tvy = 0 := hdiag.2
      simp only [if_neg hvx0, if_neg hvy0]
      exact hblend
    · simp only [if_neg hdiag]
      have ht : (tvx * cs) ^ 2 + (tvy * cs) ^ 2 ≤ p.maxSpeed ^ 2 := by
        rcases not_and_or.mp hdiag with h | h
        · rw [not_not.mp h]
          nlinarith [mul_nonneg (sub_nonneg.mpr htvy2) (sq_nonneg cs)]
        · rw [not_not.mp h]
          nlinarith [mul_nonneg (sub_nonneg.mpr htvx2) (sq_nonneg cs)]
      have hblend := blend_sq_le p.vx p.vy (tvx * cs) (tvy * cs)
        p.maxSpeed p.acceleration hv2 ht hacc0 hacc1
      set wx : ℝ := p.vx + (tvx * cs - p.vx) * p.acceleration with hwx
      set wy : ℝ := p.vy + (tvy * cs - p.vy) * p.acceleration with hwy
      have hx : (if tvx = 0 then wx * p.deceleration else wx) ^ 2 ≤ wx ^ 2 := by
        split_ifs
        · exact decel_sq_le wx p.deceleration hdec0 hdec1
        · exact le_refl _
      have hy : (if tvy = 0 then wy * p.deceleration else wy) ^ 2 ≤ wy ^ 2 := by
        split_ifs
        · exact decel_sq_le wy p.deceleration hdec0 hdec1
        · exact le_refl _
      linarith
  have : speedOf (playerMotion keys p) =
      Real.sqrt ((playerMotion keys p).vx ^ 2 + (playerMotion keys p).vy ^ 2) := rfl
  rw [this]
  calc Real.sqrt ((playerMotion keys p).vx ^ 2 + (playerMotion keys p).vy ^ 2) ≤
      Real.sqrt (p.maxSpeed ^ 2) := Real.sqrt_le_sqrt key
    _ = p.maxSpeed := Real.sqrt_sq hm0

/-- All keys released. -/
def keysNone : Keys := ⟨false, false, false, false, false, false⟩

/-- Sprinting right: ArrowRight and Shift held. -/
def keysRS : Keys := ⟨false, false, false, true, false, true⟩

/-- Witness instantiating speed_le_maxSpeed_amended at the initial
player with all keys released. -/
theorem speed_le_maxSpeed_witness :
    speedOf (playerMotion keysNone initialPlayer) ≤ initialPlayer.maxSpeed :=
  (speed_le_maxSpeed_amended keysNone initialPlayer
    (by norm_num [initialPlayer]) (by norm_num [initialPlayer])
    (by norm_num [initialPlayer]) (by norm_num [initialPlayer])
    (by norm_num [initialPlayer, BASE_PLAYER_SPEED])
    (by norm_num [initialPlayer, BASE_PLAYER_SPEED, SPRINT_MULTIPLIER])
    (by norm_num [speedOf, initialPlayer, Real.sqrt_zero,
      BASE_PLAYER_SPEED, SPRINT_MULTIPLIER])).1

/-- Player body after the opening idle tick of the C5 trace. -/
def pl1 : GameObject := ⟨200, 300, 0, 0, 20, 5, 7.5, 0.5, 0.8, 1⟩

/-- Player body after the pickup tick: maxSpeed boosted to 11.25. -/
def pl2 : GameObject := ⟨203.75, 300, 3.75, 0, 20, 5, 11.25, 0.5, 0.8, 1⟩

/-- Player body after one sprint tick at the boosted maxSpeed. -/
def pl3 : GameObject := ⟨211.25, 300, 7.5, 0, 20, 5, 11.25, 0.5, 0.8, 1⟩

/-- Player body after the expiry tick: velocity 9.375 still reflects
the boost, but maxSpeed is back at the base 7.5. -/
def pl4 : GameObject := ⟨220.625, 300, 9.375, 0, 20, 5, 7.5, 0.5, 0.8, 1⟩

/-- The speed power-up of the C5 trace, freshly spawned at the player
position. -/
def puA : PowerUp := ⟨200, 300, PUType.speed, true, 5000, none⟩

/-- The same power-up after being picked up at clock 1000. -/
def puB : PowerUp := ⟨200, 300, PUType.speed, true, 5000, some 1000⟩

/-- C5 trace state after tick 1 (spawn). -/
def worldT1 : PlayerWorld := { player := pl1, powerUps := [puA] }

/-- C5 trace state after tick 2 (pickup). -/
def worldT2 : PlayerWorld := { player := pl2, powerUps := [puB] }

/-- C5 trace state after tick 3 (sprint). -/
def worldT3 : PlayerWorld := { player := pl3, powerUps := [puB] }

/-- C5 trace state after tick 4 (sprint and expiry). -/
def worldT4 : PlayerWorld := { player := pl4, powerUps := [] }

/-- Tick-1 inputs: idle keys, spawn roll succeeds, spawn position draws
put the power-up exactly at the player (r1·760 + 20 = 200), type draw 0
picks speed. -/
def inT1 : TickInput := ⟨keysNone, 0, 0.001, 9/38, 0.5, 0⟩

/-- Tick-2 inputs: sprint right at clock 1000, no spawn. -/
def inT2 : TickInput := ⟨keysRS, 1000, 0.5, 0.5, 0.5, 0.5⟩

/-- Tick-3 inputs: sprint right at clock 2000, no spawn. -/
def inT3 : TickInput := ⟨keysRS, 2000, 0.5, 0.5, 0.5, 0.5⟩

/-- Tick-4 inputs: sprint right at clock 7000 (5000 ms after pickup, so
the power-up expires this tick), no spawn. -/
def inT4 : TickInput := ⟨keysRS, 7000, 0.5, 0.5, 0.5, 0.5⟩

lemma tick1 : playerPowerTick { player := initialPlayer, powerUps := [] } inT1 =
    worldT1 := by
  have hpm : playerMotion keysNone initialPlayer = pl1 := by
    ext <;> norm_num [playerMotion, keysNone, initialPlayer, pl1, PLAYER_RADIUS,
      BASE_PLAYER_SPEED, SPRINT_MULTIPLIER, CANVAS_WIDTH, CANVAS_HEIGHT,
      min_def, max_def]
  simp only [playerPowerTick, inT1, hpm, pickupStep, updatePowerUps, spawnPowerUp]
  norm_num [worldT1, puA, pickType, CANVAS_WIDTH, CANVAS_HEIGHT, POWER_UP_DURATION]

lemma tick2 : playerPowerTick worldT1 inT2 = worldT2 := by
  have hpm : playerMotion keysRS pl1 = { pl2 with maxSpeed := 7.5 } := by
    ext <;> norm_num [playerMotion, keysRS, pl1, pl2, CANVAS_WIDTH, CANVAS_HEIGHT,
      min_def, max_def]
  have hcond : puA.active = true ∧ puA.startTime = none ∧
      Real.sqrt (({ pl2 with maxSpeed := 7.5 }.x - puA.x) *
          ({ pl2 with maxSpeed := 7.5 }.x - puA.x) +
        ({ pl2 with maxSpeed := 7.5 }.y - puA.y) *
          ({ pl2 with maxSpeed := 7.5 }.y - puA.y)) <
        { pl2 with maxSpeed := 7.5 }.radius + 10 := by
    refine ⟨rfl, rfl, ?_⟩
    have harg : ({ pl2 with maxSpeed := 7.5 }.x - puA.x) *
          ({ pl2 with maxSpeed := 7.5 }.x - puA.x) +
        ({ pl2 with maxSpeed := 7.5 }.y - puA.y) *
          ({ pl2 with maxSpeed := 7.5 }.y - puA.y) = 3.75 ^ 2 := by
      norm_num [pl2, puA]
    rw [harg, Real.sqrt_sq (by norm_num)]
    norm_num [pl2]
  simp only [playerPowerTick, inT2, worldT1, hpm, pickupStep, if_pos hcond,
    applyPowerUp, updatePowerUps, spawnPowerUp]
  have hexp : puExpired 1000
      { x := 200, y := 300, type := PUType.speed, active := true,
        duration := 5000, startTime := some 1000 } = false := by decide
  norm_num [worldT2, puA, puB, pl2, hexp]

lemma tick3 : playerPowerTick worldT2 inT3 = worldT3 := by
  have hpm : playerMotion keysRS pl2 = pl3 := by
    ext <;> norm_num [playerMotion, keysRS, pl2, pl3, CANVAS_WIDTH, CANVAS_HEIGHT,
      min_def, max_def]
  have hcond : ¬(puB.active = true ∧ puB.startTime = none ∧
      Real.sqrt ((pl3.x - puB.x) * (pl3.x - puB.x) +
        (pl3.y - puB.y) * (pl3.y - puB.y)) < pl3.radius + 10) := by
    intro h
    simp [puB] at h
  have hexp : puExpired 2000
      { x := 200, y := 300, type := PUType.speed, active := true,
        duration := 5000, startTime := some 1000 } = false := by decide
  simp only [playerPowerTick, inT3, worldT2, hpm, pickupStep, if_neg hcond,
    updatePowerUps, spawnPowerUp]
  norm_num [worldT3, puB, pl3, hexp]

lemma tick4 : playerPowerTick worldT3 inT4 = worldT4 := by
  have hpm : playerMotion keysRS pl3 = { pl4 with maxSpeed := 11.25 } := by
    ext <;> norm_num [playerMotion, keysRS, pl3, pl4, CANVAS_WIDTH, CANVAS_HEIGHT,
      min_def, max_def]
  have hcond : ¬(puB.active = true ∧ puB.startTime = none ∧
      Real.sqrt (({ pl4 with maxSpeed := 11.25 }.x - puB.x) *
          ({ pl4 with maxSpeed := 11.25 }.x - puB.x) +
        ({ pl4 with maxSpeed := 11.25 }.y - puB.y) *
          ({ pl4 with maxSpeed := 11.25 }.y - puB.y)) <
        { pl4 with maxSpeed := 11.25 }.radius + 10) := by
    intro h
    simp [puB] at h
  have hexp : puExpired 7000
      { x := 200, y := 300, type := PUType.speed, active := true,
        duration := 5000, startTime := some 1000 } = true := by decide
  simp only [playerPowerTick, inT4, worldT3, hpm, pickupStep, if_neg hcond,
    updatePowerUps, spawnPowerUp, expireReset]
  norm_num [worldT4, puB, pl4, hexp, BASE_PLAYER_SPEED, SPRINT_MULTIPLIER]

lemma reachT4 : PReach worldT4 := by
  have h0 := PReach.init
  have h1 := PReach.step _ inT1 h0
  rw [tick1] at h1
  have h2 := PReach.step _ inT2 h1
  rw [tick2] at h2
  have h3 := PReach.step _ inT3 h2
  rw [tick3] at h3
  have h4 := PReach.step _ inT4 h3
  rw [tick4] at h4
  exact h4

/-- Counterexample to C5 as stated: a reachable state (4 concrete ticks
from the initial world: spawn, pickup of a speed power-up, two sprint
ticks with the expiry of the power-up on the second) whose next
motion-integration step leaves the player at speed 8.4375, strictly
above the current maxSpeed of 7.5 - the expiry lowered maxSpeed without
clamping the velocity. -/
theorem speed_le_maxSpeed_cex :
    PReach worldT4 ∧
    worldT4.player.maxSpeed < speedOf (playerMotion keysRS worldT4.player) := by
  refine ⟨reachT4, ?_⟩
  have hvx : (playerMotion keysRS pl4).vx = 8.4375 := by
    norm_num [playerMotion, keysRS, pl4]
  have hvy : (playerMotion keysRS pl4).vy = 0 := by
    norm_num [playerMotion, keysRS, pl4]
  have hply : worldT4.player = pl4 := rfl
  rw [hply]
  show pl4.maxSpeed <
    Real.sqrt ((playerMotion keysRS pl4).vx ^ 2 + (playerMotion keysRS pl4).vy ^ 2)
  rw [hvx, hvy]
  have harg : (8.4375:ℝ) ^ 2 + 0 ^ 2 = 8.4375 ^ 2 := by norm_num
  rw [harg, Real.sqrt_sq (by norm_num)]
  norm_num [pl4]

/-- Claim C8: from any match state, resetGame produces a state with
score (0,0), time remaining 180, no power-ups, zero kick charge, all
bodies at their initial positions with zero velocities, and
paused = true. -/
theorem reset_game_state (s : GameState) :
    (resetGame s).score = { player := 0, ai := 0 } ∧
    (resetGame s).timeLeft = 180 ∧
    (resetGame s).powerUps = [] ∧
    (resetGame s).kickPower = 0 ∧
    (resetGame s).player.x = initialPlayer.x ∧
    (resetGame s).player.y = initialPlayer.y ∧
    (resetGame s).player.vx = 0 ∧
    (resetGame s).player.vy = 0 ∧
    (resetGame s).ai.x = initialAi.x ∧
    (resetGame s).ai.y = initialAi.y ∧
    (resetGame s).ai.vx = 0 ∧
    (resetGame s).ai.vy = 0 ∧
    (resetGame s).ball.x = initialBall.x ∧
    (resetGame s).ball.y = initialBall.y ∧
    (resetGame s).ball.vx = 0 ∧
    (resetGame s).ball.vy = 0 ∧
    (resetGame s).paused = true := by
  refine ⟨rfl, rfl, rfl, rfl, ?_⟩
  simp [resetGame, initialPlayer, initialAi, initialBall]

end

end Blitzball
